import Mathlib

/-!
Shallow embedding of the Debtx intranet request-dispatch loop
(src/process/Process_request.py, src/process/MonitorPayment.py,
src/process/CancelMonitoring.py, src/process/CloseMonitor.py).

The relational store is modelled as explicit table state (lists of rows);
a MySQL connection is a pair of a committed and a pending snapshot, with
commit and rollback moving between them.  SQL statements are translated
statement by statement from the Python source: an UPDATE maps the rows
matched by its WHERE clause and reports the matched-row count as the
cursor rowcount, an INSERT appends a row, a SELECT reads the pending
snapshot.  External collaborators (the incident API, the connection
bootstrap) are oracles passed as parameters, as the specification treats
them as out of scope.  Wall-clock time is a Nat parameter standing for
the value of NOW() or datetime.now() at the call.
-/

namespace Debtx

/-- Row of request_log or request_progress_log.  Columns are nullable in
the store, hence Option-typed; a dict lookup of a missing or NULL column
in the Python source yields None, modelled as none. -/
structure ReqRow where
  rid : Option Int
  acc : Option String
  status : Option String
  dtm : Option Nat
  descr : Option String
  orderId : Option Int
  caseId : Option String
deriving DecidableEq, Repr

/-- Row of request_log_details: the ten opaque parameter slots keyed by
Request_Id. -/
structure DetailsRow where
  requestId : Int
  para1 : Option String
  para2 : Option String
  para3 : Option String
  para4 : Option String
  para5 : Option String
  para6 : Option String
  para7 : Option String
  para8 : Option String
  para9 : Option String
  para10 : Option String
deriving DecidableEq, Repr

/-- Row of process_monitor_log. -/
structure MonitorRow where
  monitorId : Nat
  caseId : Option String
  requestId : Option Int
  lastMonitoredDtm : Nat
  nextMonitorDtm : Nat
  orderId : Option Int
  accountNum : Option String
  expireDtm : Option Nat
  monitorStatus : String
  monitorStatusDtm : Nat
  monitorStatusDescription : String
deriving DecidableEq, Repr

/-- Row of process_monitor_progress_log: the monitor columns plus
created_dtm. -/
structure MonitorProgressRow where
  monitorId : Nat
  createdDtm : Nat
  caseId : Option String
  requestId : Option Int
  lastMonitoredDtm : Nat
  nextMonitorDtm : Nat
  orderId : Option Int
  accountNum : Option String
  expireDtm : Option Nat
  monitorStatus : String
  monitorStatusDtm : Nat
  monitorStatusDescription : String
deriving DecidableEq, Repr

/-- Row of process_monitor_details: the ten parameter slots keyed by
Monitor_Id. -/
structure MonitorDetailsRow where
  monitorId : Nat
  para1 : Option String
  para2 : Option String
  para3 : Option String
  para4 : Option String
  para5 : Option String
  para6 : Option String
  para7 : Option String
  para8 : Option String
  para9 : Option String
  para10 : Option String
deriving DecidableEq, Repr

/-- The relational store: the six tables the core touches, plus the
AUTO_INCREMENT counter of process_monitor_log (source of
cursor.lastrowid). -/
structure DBState where
  request_log : List ReqRow
  request_progress_log : List ReqRow
  request_log_details : List DetailsRow
  process_monitor_log : List MonitorRow
  process_monitor_progress_log : List MonitorProgressRow
  process_monitor_details : List MonitorDetailsRow
  nextMonitorId : Nat
deriving DecidableEq, Repr

/-- A MySQL connection with an open transaction: the committed snapshot
(ground truth, visible to other connections) and the pending snapshot
(as seen by this connection's cursors). -/
structure Conn where
  committed : DBState
  pending : DBState
deriving DecidableEq, Repr

/-- connection.commit. -/
def commitConn (c : Conn) : Conn :=
  { committed := c.pending, pending := c.pending }

/-- connection.rollback. -/
def rollbackConn (c : Conn) : Conn :=
  { c with pending := c.committed }

/-- A fresh connection on a store: nothing pending. -/
def freshConn (db : DBState) : Conn :=
  { committed := db, pending := db }

/-- Transaction-control calls made on a connection, recorded as an
effect trace to state frame conditions about borrowed connections. -/
inductive TxAction where
  | commit
  | rollback
deriving DecidableEq, Repr

/-- Python truthiness of an optional integer (None and 0 are falsy). -/
def pyTruthyInt (o : Option Int) : Bool :=
  match o with
  | none => false
  | some v => v != 0

/-- Python truthiness of an optional string (None and the empty string
are falsy). -/
def pyTruthyStr (o : Option String) : Bool :=
  match o with
  | none => false
  | some s => !s.isEmpty

/-- Python str.strip()-is-empty: the string holds only whitespace.
Stripping trailing whitespace cannot change emptiness, so dropping the
leading whitespace decides it. -/
def stripIsEmpty (s : String) : Bool :=
  (s.data.dropWhile Char.isWhitespace).isEmpty

/-- MonitorPayment._validate_inputs: account_num must be a non-empty
(after strip) string and request_id a positive integer. -/
def validate_inputs (account_num : Option String) (request_id : Option Int) : Bool :=
  match account_num with
  | none => false
  | some a =>
    if stripIsEmpty a then false
    else
      match request_id with
      | none => false
      | some r => decide (0 < r)

/-- WHERE clause of the two status updates: Request_Id = rid AND
account_num = acc AND Request_Status equals the string Open (a NULL
column never matches). -/
def reqRowOpenMatch (rid : Int) (acc : String) (r : ReqRow) : Bool :=
  r.rid == some rid && r.acc == some acc && r.status == some "Open"

/-- Number of rows matched by the guarded update, the cursor rowcount
of the UPDATE statement. -/
def countOpenMatch (tbl : List ReqRow) (rid : Int) (acc : String) : Nat :=
  tbl.countP (fun r => reqRowOpenMatch rid acc r)

/-- Effect of the guarded UPDATE: every matched row gets the new status,
a fresh status timestamp and, when descr is given, the new description
(process_case's updates set no description; MonitorPayment's do). -/
def applyReqUpdate (tbl : List ReqRow) (rid : Int) (acc : String)
    (status : String) (now : Nat) (descr : Option String) : List ReqRow :=
  tbl.map fun r =>
    if reqRowOpenMatch rid acc r then
      { r with
        status := some status
        dtm := some now
        descr := match descr with | some d => some d | none => r.descr }
    else r

/-- Request_Status_Description literal chosen by
MonitorPayment.update_request_progress_status. -/
def statusDescription (status : String) : String :=
  if status = "Completed" then "Monitoring cancellation completed"
  else "Error in cancellation process"

/-- MonitorPayment.update_request_progress_status from the cursor
creation onward, on an open connection.  ownConn is the
close_connection flag of the source, guarding every commit and
rollback.  Live callers always pass a connection (ownConn=false); the
connection=None shape never reaches this body because its with-block
closes the connection first (see update_request_progress_status_own),
so the ownConn=true branches model textually present but unreachable
code.  Returns the boolean result, the connection after the call, and
the trace of transaction-control calls made on the connection. -/
def update_request_progress_status (request_id : Option Int)
    (account_num : Option String) (status : String) (now : Nat)
    (ownConn : Bool) (conn : Conn) : Bool × Conn × List TxAction :=
  if validate_inputs account_num request_id then
    match request_id, account_num with
    | some rid, some acc =>
      let d := statusDescription status
      let n1 := countOpenMatch conn.pending.request_progress_log rid acc
      let conn1 : Conn :=
        { conn with
          pending :=
            { conn.pending with
              request_progress_log :=
                applyReqUpdate conn.pending.request_progress_log rid acc status now (some d) } }
      if n1 ≠ 1 then
        if ownConn then (false, rollbackConn conn1, [TxAction.rollback])
        else (false, conn1, [])
      else
        let n2 := countOpenMatch conn1.pending.request_log rid acc
        let conn2 : Conn :=
          { conn1 with
            pending :=
              { conn1.pending with
                request_log :=
                  applyReqUpdate conn1.pending.request_log rid acc status now (some d) } }
        if n2 ≠ 1 then
          if ownConn then (false, rollbackConn conn2, [TxAction.rollback])
          else (false, conn2, [])
        else
          if ownConn then (true, commitConn conn2, [TxAction.commit])
          else (true, conn2, [])
    | _, _ => (false, conn, [])
  else (false, conn, [])

/-- The connection=None call shape of update_request_progress_status.
In the source the connection is acquired inside a with-block that ends
before the cursor is created: DBConnectionSingleton.__exit__ closes the
connection on leaving the block, so creating the cursor on the closed
connection raises, the generic except handler returns False, and no SQL
statement ever executes.  Every such call therefore fails with no
writes (the close_connection=true commit/rollback branches of the
method body are dead code on this shape). -/
def update_request_progress_status_own (request_id : Option Int)
    (account_num : Option String) (status : String) (now : Nat)
    (db : DBState) : Bool × DBState :=
  (false, db)

/-- Process_request.process_case: runs the incident creation (an
external collaborator, outcome given by incidentOk), then updates the
two queue tables.  Unlike the shared Status Updater, each of the two
UPDATE statements here is followed by its own connection.commit before
the rowcount is checked. -/
def process_case (incidentOk : Bool) (account_number : String)
    (request_id : Int) (now : Nat) (db : DBState) : Bool × DBState :=
  let status := if incidentOk then "Completed" else "Error"
  let n1 := countOpenMatch db.request_progress_log request_id account_number
  let db1 :=
    { db with
      request_progress_log :=
        applyReqUpdate db.request_progress_log request_id account_number status now none }
  if n1 ≠ 1 then (false, db1)
  else
    let n2 := countOpenMatch db1.request_log request_id account_number
    let db2 :=
      { db1 with
        request_log := applyReqUpdate db1.request_log request_id account_number status now none }
    if n2 ≠ 1 then (false, db2) else (incidentOk, db2)

/-- SELECT of request_log_details by Request_Id (fetchone), shared by
MonitorPayment.get_request_details and the incident-id lookup. -/
def get_request_details (request_id : Option Int) (db : DBState) : Option DetailsRow :=
  db.request_log_details.find? (fun d => request_id == some d.requestId)

/-- Process_request.process_single_document: extract the keys, fetch the
incident id from request_log_details, then hand over to process_case. -/
def process_single_document (incidentOk : Bool) (row : ReqRow) (now : Nat)
    (db : DBState) : Bool × DBState :=
  if !pyTruthyInt row.rid || !pyTruthyStr row.acc then (false, db)
  else
    match row.rid, row.acc with
    | some rid, some acc =>
      match get_request_details (some rid) db with
      | none => (false, db)
      | some d =>
        if pyTruthyStr d.para1 then process_case incidentOk acc rid now db
        else (false, db)
    | _, _ => (false, db)

/-- Fixed monitoring interval of the handlers (hours; time is counted in
hours in this model). -/
def monitoring_interval_hours : Nat := 24

/-- Injected outcomes of the three INSERT statements of the MonitorStart
chain: false stands for an insert that affects no row (the rowcount
guard of the source then fails). -/
structure StepOracle where
  insertLogOk : Bool
  insertProgressOk : Bool
  insertDetailsOk : Bool
deriving DecidableEq, Repr

/-- MonitorPayment.create_process_monitor_log: own connection, INSERT
into process_monitor_log, commit, then the rowcount guard; returns the
generated Monitor_Id on success. -/
def create_process_monitor_log (insertOk : Bool) (request_data : ReqRow)
    (now : Nat) (db : DBState) : Option Nat × DBState :=
  if insertOk then
    let mid := db.nextMonitorId
    let row : MonitorRow :=
      { monitorId := mid
        caseId := request_data.caseId
        requestId := request_data.rid
        lastMonitoredDtm := now
        nextMonitorDtm := now + monitoring_interval_hours
        orderId := request_data.orderId
        accountNum := request_data.acc
        expireDtm := none
        monitorStatus := "Open"
        monitorStatusDtm := now
        monitorStatusDescription := "Initial monitoring setup" }
    (some mid,
      { db with
        process_monitor_log := db.process_monitor_log ++ [row]
        nextMonitorId := mid + 1 })
  else (none, db)

/-- MonitorPayment.create_process_monitor_progress_log: own connection,
re-reads the monitor row by Monitor_Id, mirrors it into
process_monitor_progress_log, commit, rowcount guard. -/
def create_process_monitor_progress_log (insertOk : Bool) (monitor_id : Nat)
    (now : Nat) (db : DBState) : Bool × DBState :=
  match db.process_monitor_log.find? (fun m => m.monitorId == monitor_id) with
  | none => (false, db)
  | some m =>
    if insertOk then
      let row : MonitorProgressRow :=
        { monitorId := monitor_id
          createdDtm := now
          caseId := m.caseId
          requestId := m.requestId
          lastMonitoredDtm := m.lastMonitoredDtm
          nextMonitorDtm := m.nextMonitorDtm
          orderId := m.orderId
          accountNum := m.accountNum
          expireDtm := m.expireDtm
          monitorStatus := m.monitorStatus
          monitorStatusDtm := m.monitorStatusDtm
          monitorStatusDescription := m.monitorStatusDescription }
      (true,
        { db with
          process_monitor_progress_log := db.process_monitor_progress_log ++ [row] })
    else (false, db)

/-- MonitorPayment.create_process_monitor_details: runs on a borrowed
connection; fetches the parameter slots, inserts the copy, and calls
connection.commit on the borrowed connection before the rowcount check
(on the lookup-miss path nothing is executed and nothing committed). -/
def create_process_monitor_details (insertOk : Bool) (monitor_id : Nat)
    (request_id : Option Int) (conn : Conn) : Bool × Conn :=
  match get_request_details request_id conn.pending with
  | none => (false, conn)
  | some d =>
    let pend :=
      if insertOk then
        { conn.pending with
          process_monitor_details :=
            conn.pending.process_monitor_details ++
              [{ monitorId := monitor_id
                 para1 := d.para1, para2 := d.para2, para3 := d.para3
                 para4 := d.para4, para5 := d.para5, para6 := d.para6
                 para7 := d.para7, para8 := d.para8, para9 := d.para9
                 para10 := d.para10 }]}
      else conn.pending
    (insertOk, commitConn { conn with pending := pend })

/-- MonitorPayment.process_monitoring_request: the MonitorStart
(Order_Id=2) chain.  Each step opens its own connection (step 3 is
handed a freshly opened one) and commits independently; a failed step
stops the chain with False. -/
def process_monitoring_request (o : StepOracle) (request_data : ReqRow)
    (now : Nat) (db : DBState) : Bool × DBState :=
  if validate_inputs request_data.acc request_data.rid then
    let s1 := create_process_monitor_log o.insertLogOk request_data now db
    match s1.1 with
    | none => (false, s1.2)
    | some mid =>
      if mid = 0 then (false, s1.2)
      else
        let s2 := create_process_monitor_progress_log o.insertProgressOk mid now s1.2
        if !s2.1 then (false, s2.2)
        else
          let s3 := create_process_monitor_details o.insertDetailsOk mid request_data.rid
            (freshConn s2.2)
          let db3 := s3.2.committed
          if !s3.1 then (false, db3)
          else update_request_progress_status_own request_data.rid request_data.acc
            "Completed" now db3
  else (false, db)

/-- Result of one per-type processor: the (processed_count, error_count)
pair it returns, the store afterwards, and the number of one-second
rate-limiting sleeps it performed. -/
structure HandlerResult where
  processed : Nat
  errors : Nat
  sleeps1 : Nat
  db : DBState
deriving DecidableEq, Repr

/-- Process_request.customer_details_for_case_registration: processes
the rows whose Order_Id is 1, counting successes and failures, with a
one-second sleep after each processed row; other rows are skipped.  The
per-row incident outcome is the oracle inc. -/
def customer_details_for_case_registration (inc : ReqRow → Bool)
    (rows : List ReqRow) (now : Nat) (db : DBState) : HandlerResult :=
  match rows with
  | [] => { processed := 0, errors := 0, sleeps1 := 0, db := db }
  | r :: rs =>
    if r.orderId == some 1 then
      let s := process_single_document (inc r) r now db
      let rest := customer_details_for_case_registration inc rs now s.2
      if s.1 then
        { rest with processed := rest.processed + 1, sleeps1 := rest.sleeps1 + 1 }
      else
        { rest with errors := rest.errors + 1, sleeps1 := rest.sleeps1 + 1 }
    else customer_details_for_case_registration inc rs now db

/-- Process_request.monitor_payment: processes the rows whose Order_Id
is 2 through MonitorPayment.process_monitoring_request, with a
one-second sleep after each processed row. -/
def monitor_payment (orc : ReqRow → StepOracle) (rows : List ReqRow)
    (now : Nat) (db : DBState) : HandlerResult :=
  match rows with
  | [] => { processed := 0, errors := 0, sleeps1 := 0, db := db }
  | r :: rs =>
    if r.orderId == some 2 then
      let s := process_monitoring_request (orc r) r now db
      let rest := monitor_payment orc rs now s.2
      if s.1 then
        { rest with processed := rest.processed + 1, sleeps1 := rest.sleeps1 + 1 }
      else
        { rest with errors := rest.errors + 1, sleeps1 := rest.sleeps1 + 1 }
    else monitor_payment orc rs now db

/-- A Python exception escaping a handler. -/
inductive PyError where
  | attributeError (cls method : String)
deriving DecidableEq, Repr

/-- The methods the MonitorPayment class defines (src/process/
MonitorPayment.py).  The cancel entry point of the dispatcher calls
cancel_monitoring_request on a MonitorPayment instance, and this list
shows the class defines no such method: the attribute access raises
AttributeError.  (The method of that name lives on the separate
CancelMonitoring class, which Process_request.py never imports.) -/
def monitorPaymentMethods : List String :=
  ["__init__", "_validate_inputs", "get_request_progress_data",
   "get_request_details", "create_process_monitor_log",
   "create_process_monitor_progress_log", "create_process_monitor_details",
   "update_request_progress_status", "process_monitoring_request",
   "process_all_monitoring_requests"]

/-- Process_request.monitor_payment_cancel: iterates the rows whose
Order_Id is 3 and calls monitor_payment.cancel_monitoring_request on a
MonitorPayment instance.  MonitorPayment defines no method of that name
(see monitorPaymentMethods), so the first matching row raises
AttributeError, which nothing in this method catches. -/
def monitor_payment_cancel (rows : List ReqRow) (db : DBState) :
    Except PyError HandlerResult :=
  match rows with
  | [] => Except.ok { processed := 0, errors := 0, sleeps1 := 0, db := db }
  | r :: rs =>
    if r.orderId == some 3 then
      Except.error (PyError.attributeError "MonitorPayment" "cancel_monitoring_request")
    else monitor_payment_cancel rs db

/-- CancelMonitoring._validate_inputs: like the MonitorPayment variant
but additionally requires a non-empty case_id, checked in the order of
the source. -/
def validate_inputs_cancel (account_num : Option String)
    (request_id : Option Int) (case_id : Option String) : Bool :=
  match account_num with
  | none => false
  | some a =>
    if stripIsEmpty a then false
    else
      match request_id with
      | none => false
      | some r =>
        match case_id with
        | none => false
        | some c => if stripIsEmpty c then false else decide (0 < r)

/-- CancelMonitoring.cancel_monitoring_request: the MonitorCancel
(Order_Id=3) chain, all on one connection with a single final commit;
every failing step rolls back, so the visible store is unchanged on
every failure path. -/
def cancel_monitoring_request (request_data : ReqRow) (now : Nat)
    (db : DBState) : Bool × DBState :=
  if validate_inputs_cancel request_data.acc request_data.rid request_data.caseId then
    match request_data.rid, request_data.acc, request_data.caseId with
    | some rid, some acc, some caseId =>
      match get_request_details (some rid) db with
      | none => (false, db)
      | some details =>
        match db.process_monitor_progress_log.find?
            (fun m => m.caseId == some caseId && m.accountNum == some acc) with
        | none => (false, db)
        | some existing =>
          let mid := existing.monitorId
          let hit3 := fun (m : MonitorProgressRow) =>
            m.monitorId == mid && m.caseId == some caseId && m.accountNum == some acc
          let n3 := db.process_monitor_progress_log.countP hit3
          let pend3 :=
            { db with
              process_monitor_progress_log := db.process_monitor_progress_log.map
                (fun m =>
                  if hit3 m then
                    { m with
                      requestId := some rid
                      lastMonitoredDtm := now
                      nextMonitorDtm := now + monitoring_interval_hours
                      orderId := request_data.orderId
                      monitorStatus := "Cancelled"
                      monitorStatusDtm := now
                      monitorStatusDescription := "Cancellation processed" }
                  else m) }
          if n3 ≠ 1 then (false, db)
          else
            let hit4 := fun (m : MonitorRow) =>
              m.monitorId == mid && m.caseId == some caseId && m.accountNum == some acc
            let n4 := pend3.process_monitor_log.countP hit4
            let pend4 :=
              { pend3 with
                process_monitor_log := pend3.process_monitor_log.map
                  (fun m =>
                    if hit4 m then
                      { m with
                        requestId := some rid
                        lastMonitoredDtm := now
                        nextMonitorDtm := now + monitoring_interval_hours
                        orderId := request_data.orderId
                        monitorStatus := "Cancelled"
                        monitorStatusDtm := now
                        monitorStatusDescription := "Cancellation processed" }
                    else m) }
            if n4 ≠ 1 then (false, db)
            else
              let n5 : Nat := pend4.process_monitor_details.countP
                (fun d : MonitorDetailsRow => d.monitorId == mid)
              let pend5 :=
                { pend4 with
                  process_monitor_details := pend4.process_monitor_details.map
                    (fun d : MonitorDetailsRow =>
                      if d.monitorId == mid then
                        { d with
                          para1 := details.para1
                          para2 := details.para2
                          para3 := none, para4 := none, para5 := none
                          para6 := none, para7 := none, para8 := none
                          para9 := none, para10 := none }
                      else d) }
              if n5 ≠ 1 then (false, db)
              else
                let r := update_request_progress_status (some rid) (some acc)
                  "Completed" now false { committed := db, pending := pend5 }
                if r.1 then (true, (commitConn r.2.1).committed)
                else (false, db)
    | _, _, _ => (false, db)
  else (false, db)

/-- One row of Process_request.close_monitor_if_no_transaction
(MonitorClose, Order_Id=4): inserts a fresh monitor row with status
Closed and its progress mirror (each committed at once), copies the
details, then runs the Status Updater on the same connection.  It never
looks up an existing monitor record.  Outcome none is a skipped row
(wrong Order_Id), some false an errored row, some true a processed row.
Inserts are assumed to affect one row, so the rowcount guards of steps
1 and 2 pass. -/
def close_monitor_row (row : ReqRow) (now : Nat) (db : DBState) :
    Option Bool × DBState :=
  if !(row.orderId == some 4) then (none, db)
  else if !pyTruthyInt row.rid || !pyTruthyStr row.acc || !pyTruthyStr row.caseId then
    (some false, db)
  else
    match row.rid, row.acc, row.caseId with
    | some rid, some acc, some caseId =>
      let mid := db.nextMonitorId
      let mrow : MonitorRow :=
        { monitorId := mid
          caseId := some caseId
          requestId := some rid
          lastMonitoredDtm := now
          nextMonitorDtm := now + monitoring_interval_hours
          orderId := row.orderId
          accountNum := some acc
          expireDtm := none
          monitorStatus := "Closed"
          monitorStatusDtm := now
          monitorStatusDescription := "Monitor closed due to no transaction" }
      let db1 :=
        { db with
          process_monitor_log := db.process_monitor_log ++ [mrow]
          nextMonitorId := mid + 1 }
      let prow : MonitorProgressRow :=
        { monitorId := mid
          createdDtm := now
          caseId := some caseId
          requestId := some rid
          lastMonitoredDtm := now
          nextMonitorDtm := now + monitoring_interval_hours
          orderId := row.orderId
          accountNum := some acc
          expireDtm := none
          monitorStatus := "Closed"
          monitorStatusDtm := now
          monitorStatusDescription := "Monitor closed due to no transaction" }
      let db2 :=
        { db1 with
          process_monitor_progress_log := db1.process_monitor_progress_log ++ [prow] }
      let s3 := create_process_monitor_details true mid (some rid) (freshConn db2)
      if !s3.1 then (some false, s3.2.committed)
      else
        let r := update_request_progress_status (some rid) (some acc)
          "Completed" now false s3.2
        if !r.1 then (some false, (rollbackConn r.2.1).committed)
        else (some true, (commitConn r.2.1).committed)
    | _, _, _ => (some false, db)

/-- Process_request.close_monitor_if_no_transaction over a row list.
The one-second sleep at the bottom of the loop body is reached only
when the row was processed successfully (every failure path continues
past it). -/
def close_monitor_if_no_transaction (rows : List ReqRow) (now : Nat)
    (db : DBState) : HandlerResult :=
  match rows with
  | [] => { processed := 0, errors := 0, sleeps1 := 0, db := db }
  | r :: rs =>
    let s := close_monitor_row r now db
    let rest := close_monitor_if_no_transaction rs now s.2
    match s.1 with
    | none => rest
    | some true =>
      { rest with processed := rest.processed + 1, sleeps1 := rest.sleeps1 + 1 }
    | some false => { rest with errors := rest.errors + 1 }

/-- Process_request.get_open_orders: SELECT of request_progress_log
filtered to Request_Status equal to Open; on a connection failure the
exception is caught, logged, and the empty list returned. -/
def get_open_orders (connOk : Bool) (db : DBState) : List ReqRow :=
  if connOk then db.request_progress_log.filter (fun r => r.status == some "Open")
  else []

/-- Process_request.process_selected_option: the dispatcher.  Exactly
one handler per known option; an unknown option only logs a warning.
The option-3 branch propagates the AttributeError of
monitor_payment_cancel. -/
def process_selected_option (inc : ReqRow → Bool) (orc : ReqRow → StepOracle)
    (opt : Int) (rows : List ReqRow) (now : Nat) (db : DBState) :
    Except PyError DBState :=
  if opt = 1 then Except.ok (customer_details_for_case_registration inc rows now db).db
  else if opt = 2 then Except.ok (monitor_payment orc rows now db).db
  else if opt = 3 then
    match monitor_payment_cancel rows db with
    | Except.ok h => Except.ok h.db
    | Except.error e => Except.error e
  else if opt = 4 then Except.ok (close_monitor_if_no_transaction rows now db).db
  else Except.ok db

/-- Environment input of one iteration of the poll loop: a keyboard
interrupt, an unexpected exception from the environment, or a fetch
whose connection either works or fails. -/
inductive CycleInput where
  | interrupted
  | crashed
  | fetch (connOk : Bool)
deriving DecidableEq, Repr

/-- Observable outcome of one loop iteration: the store afterwards, the
sleeps performed (in seconds), and whether the loop broke out. -/
structure CycleResult where
  db : DBState
  sleeps : List Nat
  breaks : Bool
deriving DecidableEq, Repr

/-- The option sweep of run_process (for option in range(1, 5)): only
options with at least one matching row are dispatched; an exception
from a dispatch aborts the sweep, returning the store at that point and
the raised flag. -/
def dispatch_options (inc : ReqRow → Bool) (orc : ReqRow → StepOracle)
    (opts : List Int) (rows : List ReqRow) (now : Nat) (db : DBState) :
    DBState × Bool :=
  match opts with
  | [] => (db, false)
  | o :: os =>
    let relevant := rows.filter (fun r => r.orderId == some o)
    if relevant.isEmpty then dispatch_options inc orc os rows now db
    else
      match process_selected_option inc orc o relevant now db with
      | Except.ok db' => dispatch_options inc orc os rows now db'
      | Except.error _ => (db, true)

/-- One iteration of Process_request.run_process: interrupt breaks the
loop; any other exception sleeps five seconds and retries; an empty
fetch sleeps five seconds; otherwise the options are swept and the
cycle ends with a one-second sleep, or a five-second sleep when a
dispatch raised. -/
def run_cycle (inc : ReqRow → Bool) (orc : ReqRow → StepOracle)
    (input : CycleInput) (now : Nat) (db : DBState) : CycleResult :=
  match input with
  | CycleInput.interrupted => { db := db, sleeps := [], breaks := true }
  | CycleInput.crashed => { db := db, sleeps := [5], breaks := false }
  | CycleInput.fetch connOk =>
    let rows := get_open_orders connOk db
    if rows.isEmpty then { db := db, sleeps := [5], breaks := false }
    else
      let d := dispatch_options inc orc [1, 2, 3, 4] rows now db
      if d.2 then { db := d.1, sleeps := [5], breaks := false }
      else { db := d.1, sleeps := [1], breaks := false }

/-- Process_request.run_process over a finite schedule of environment
inputs: runs cycle after cycle until an interrupt breaks the loop (the
source loops forever; a run over any finite schedule prefix is
modelled).  Returns the final store, the sleep trace, and whether the
loop was exited. -/
def run_process (inc : ReqRow → Bool) (orc : ReqRow → StepOracle)
    (inputs : List CycleInput) (now : Nat) (db : DBState) :
    DBState × List Nat × Bool :=
  match inputs with
  | [] => (db, [], false)
  | i :: is =>
    let c := run_cycle inc orc i now db
    if c.breaks then (c.db, c.sleeps, true)
    else
      let r := run_process inc orc is now c.db
      (r.1, c.sleeps ++ r.2.1, r.2.2)

/-! Concrete fixtures used by witnesses and counterexamples. -/

/-- A queue row in status Open. -/
def rowOpen (rid : Int) (acc : String) (oid : Int) (cid : String) : ReqRow :=
  { rid := some rid, acc := some acc, status := some "Open", dtm := some 0,
    descr := some "init", orderId := some oid, caseId := some cid }

/-- A store with one Open queue row mirrored in both tables and no other
data. -/
def dbOneOpen (rid : Int) (acc : String) (oid : Int) : DBState :=
  { request_log := [rowOpen rid acc oid "C1"]
    request_progress_log := [rowOpen rid acc oid "C1"]
    request_log_details := []
    process_monitor_log := []
    process_monitor_progress_log := []
    process_monitor_details := []
    nextMonitorId := 1 }

/-- A store whose progress log has an Open row for (100, ACC1) but whose
request_log has no matching row: the two mirror tables disagree. -/
def dbProgressOnly : DBState :=
  { request_log := []
    request_progress_log := [rowOpen 100 "ACC1" 1 "C1"]
    request_log_details := []
    process_monitor_log := []
    process_monitor_progress_log := []
    process_monitor_details := []
    nextMonitorId := 1 }

/-- Incident oracle that always succeeds, for concrete runs. -/
def incAll : ReqRow → Bool := fun _ => true

/-- Insert oracle in which every insert affects one row, for concrete
runs. -/
def orcAll : ReqRow → StepOracle :=
  fun _ => { insertLogOk := true, insertProgressOk := true, insertDetailsOk := true }

/-- An entirely empty store. -/
def dbEmpty : DBState :=
  { request_log := []
    request_progress_log := []
    request_log_details := []
    process_monitor_log := []
    process_monitor_progress_log := []
    process_monitor_details := []
    nextMonitorId := 1 }

/-- A request_log_details fixture row. -/
def dRow (rid : Int) : DetailsRow :=
  { requestId := rid, para1 := some "INC1", para2 := some "P2"
    para3 := none, para4 := none, para5 := none, para6 := none
    para7 := none, para8 := none, para9 := none, para10 := none }

/-- A MonitorStart queue row fixture. -/
def rowMon : ReqRow := rowOpen 100 "ACC1" 2 "C1"

/-- A store holding the Open MonitorStart queue row but no
request_log_details row, so the details step of the chain fails. -/
def dbNoDetails : DBState :=
  { request_log := [rowMon]
    request_progress_log := [rowMon]
    request_log_details := []
    process_monitor_log := []
    process_monitor_progress_log := []
    process_monitor_details := []
    nextMonitorId := 1 }

/-- A MonitorClose queue row fixture. -/
def rowClose : ReqRow := rowOpen 7 "ACC1" 4 "C9"

/-- A store with the Open MonitorClose queue row, its details row, and
no monitor record at all for any (case_id, account_num). -/
def dbNoMonitor : DBState :=
  { request_log := [rowClose]
    request_progress_log := [rowClose]
    request_log_details := [dRow 7]
    process_monitor_log := []
    process_monitor_progress_log := []
    process_monitor_details := []
    nextMonitorId := 1 }

/-- A store for the close handler whose progress log holds the Open
MonitorClose row (with its details) but whose request_log has no
matching row, so the Status Updater's two update counts mismatch. -/
def dbCloseMismatch : DBState :=
  { request_log := []
    request_progress_log := [rowClose]
    request_log_details := [dRow 7]
    process_monitor_log := []
    process_monitor_progress_log := []
    process_monitor_details := []
    nextMonitorId := 1 }

/-! Helper lemmas. -/

/-- After the guarded update with a non-Open target status, no row of
the table still matches the Open guard: rows that matched were moved to
the new status and rows that did not match are unchanged. -/
theorem countOpenMatch_applyReqUpdate (tbl : List ReqRow) (rid : Int)
    (acc : String) (status : String) (now : Nat) (descr : Option String)
    (h : status ≠ "Open") :
    countOpenMatch (applyReqUpdate tbl rid acc status now descr) rid acc = 0 := by
  unfold countOpenMatch applyReqUpdate
  rw [List.countP_eq_zero]
  intro a ha
  rw [List.mem_map] at ha
  obtain ⟨r, hrs, rfl⟩ := ha
  by_cases hr : reqRowOpenMatch rid acc r = true
  · rw [if_pos hr]
    simp [reqRowOpenMatch, h]
  · rw [if_neg hr]
    exact fun hc => hr hc

/-- The guarded update is the identity when no row matches the Open
guard. -/
theorem applyReqUpdate_no_match (tbl : List ReqRow) (rid : Int) (acc : String)
    (status : String) (now : Nat) (descr : Option String)
    (h : countOpenMatch tbl rid acc = 0) :
    applyReqUpdate tbl rid acc status now descr = tbl := by
  unfold countOpenMatch at h
  rw [List.countP_eq_zero] at h
  unfold applyReqUpdate
  induction tbl with
  | nil => rfl
  | cons r rs ih =>
    have hr : ¬reqRowOpenMatch rid acc r = true := h r (by simp)
    rw [List.map_cons, if_neg hr, ih (fun a ha => h a (by simp [ha]))]

/-- On a caller-supplied connection, the Status Updater fails and
leaves the connection untouched when no progress-log row of the
pending state matches the Open guard (the first rowcount is zero). -/
theorem update_status_borrowed_no_open (rid : Int) (acc : String)
    (status : String) (now : Nat) (conn : Conn)
    (h : countOpenMatch conn.pending.request_progress_log rid acc = 0) :
    update_request_progress_status (some rid) (some acc) status now false conn =
      (false, conn, []) := by
  unfold update_request_progress_status
  by_cases hv : validate_inputs (some acc) (some rid) = true
  · simp [hv, h, applyReqUpdate_no_match conn.pending.request_progress_log rid acc
      status now (some (statusDescription status)) h]
  · simp only [Bool.not_eq_true] at hv
    simp [hv]

/-- On a caller-supplied connection with exactly one matching Open row
in each pending table, the Status Updater succeeds, applying both
guarded updates to the pending state without any transaction-control
call. -/
theorem update_status_borrowed_success (rid : Int) (acc : String)
    (status : String) (now : Nat) (conn : Conn)
    (hv : validate_inputs (some acc) (some rid) = true)
    (h1 : countOpenMatch conn.pending.request_progress_log rid acc = 1)
    (h2 : countOpenMatch conn.pending.request_log rid acc = 1) :
    update_request_progress_status (some rid) (some acc) status now false conn =
      (true,
        { conn with
          pending :=
            { conn.pending with
              request_progress_log :=
                applyReqUpdate conn.pending.request_progress_log rid acc status now
                  (some (statusDescription status))
              request_log :=
                applyReqUpdate conn.pending.request_log rid acc status now
                  (some (statusDescription status)) } },
        []) := by
  unfold update_request_progress_status
  simp [hv, h1, h2]

/-! Claim theorems. -/

/-- C9: when update_request_progress_status is called with a
caller-supplied connection (close_connection stays false), it performs
no commit and no rollback on that connection on any path, success or
failure: the transaction-control trace is empty. -/
theorem update_status_borrowed_conn_frame (request_id : Option Int)
    (account_num : Option String) (status : String) (now : Nat) (conn : Conn) :
    (update_request_progress_status request_id account_num status now false conn).2.2 = [] := by
  unfold update_request_progress_status
  by_cases hv : validate_inputs account_num request_id = true
  · rcases request_id with _ | rid
    · simp [hv]
    · rcases account_num with _ | acc
      · simp [hv]
      · by_cases h1 : countOpenMatch conn.pending.request_progress_log rid acc = 1
        · by_cases h2 : countOpenMatch conn.pending.request_log rid acc = 1 <;>
            simp [hv, h1, h2]
        · simp [hv, h1]
  · simp only [Bool.not_eq_true] at hv
    simp [hv]

/-- C1 counterexample: (i) the connection=None call shape fails on the
closed connection, so with one Open row in each table the first call
returns False, not True as claimed; (ii) on a caller-supplied
connection with target status Open, the guard still matches after the
first call, so two consecutive calls with the same target status both
return True, refuting the claim that the second always returns False. -/
theorem update_status_at_most_once_refuted :
    (update_request_progress_status_own (some 100) (some "ACC1") "Completed" 1
      (dbOneOpen 100 "ACC1" 2)).1 = false ∧
    (update_request_progress_status (some 100) (some "ACC1") "Open" 1 false
      (freshConn (dbOneOpen 100 "ACC1" 2))).1 = true ∧
    (update_request_progress_status (some 100) (some "ACC1") "Open" 2 false
      (update_request_progress_status (some 100) (some "ACC1") "Open" 1 false
        (freshConn (dbOneOpen 100 "ACC1" 2))).2.1).1 = true := by
  decide

/-- C1 (amended): row updates happen only on the caller-supplied
connection shape.  There, once the queue rows have left Open in the
connection's pending state, any call with any target status returns
False and changes nothing; and for any target status other than Open,
two consecutive calls with the same target status have the first
succeed (one row matched in each table) and the second return False
with no writes.  With connection=None the method's with-block closes
the connection before the cursor exists, so every such call returns
False with no writes. -/
theorem update_status_at_most_once (rid : Int) (acc : String) (status : String)
    (now now2 : Nat) (conn : Conn)
    (hval : validate_inputs (some acc) (some rid) = true)
    (hstat : status ≠ "Open") :
    (countOpenMatch conn.pending.request_progress_log rid acc = 0 →
      update_request_progress_status (some rid) (some acc) status now false conn =
        (false, conn, [])) ∧
    (countOpenMatch conn.pending.request_progress_log rid acc = 1 →
      countOpenMatch conn.pending.request_log rid acc = 1 →
      (update_request_progress_status (some rid) (some acc) status now false conn).1 = true ∧
      update_request_progress_status (some rid) (some acc) status now2 false
        (update_request_progress_status (some rid) (some acc) status now false conn).2.1 =
        (false,
          (update_request_progress_status (some rid) (some acc) status now false conn).2.1,
          [])) ∧
    (∀ db : DBState,
      update_request_progress_status_own (some rid) (some acc) status now db =
        (false, db)) := by
  refine ⟨?_, ?_, fun db => rfl⟩
  · intro h0
    exact update_status_borrowed_no_open rid acc status now conn h0
  · intro h1 h2
    rw [update_status_borrowed_success rid acc status now conn hval h1 h2]
    refine ⟨rfl, ?_⟩
    exact update_status_borrowed_no_open rid acc status now2 _
      (countOpenMatch_applyReqUpdate conn.pending.request_progress_log rid acc status now
        (some (statusDescription status)) hstat)

/-- Witness for C1 at a concrete connection: one Open row per pending
table, target status Completed; the first call succeeds and the second
fails without writes. -/
theorem update_status_at_most_once_witness :
    (update_request_progress_status (some 100) (some "ACC1") "Completed" 1 false
      (freshConn (dbOneOpen 100 "ACC1" 2))).1 = true ∧
    update_request_progress_status (some 100) (some "ACC1") "Completed" 2 false
      (update_request_progress_status (some 100) (some "ACC1") "Completed" 1 false
        (freshConn (dbOneOpen 100 "ACC1" 2))).2.1 =
      (false,
        (update_request_progress_status (some 100) (some "ACC1") "Completed" 1 false
          (freshConn (dbOneOpen 100 "ACC1" 2))).2.1,
        []) :=
  (update_status_at_most_once 100 "ACC1" "Completed" 1 2
    (freshConn (dbOneOpen 100 "ACC1" 2)) (by decide) (by decide)).2.1
    (by decide) (by decide)

/-- C2 counterexample: in process_case each queue update is committed
individually, so when the progress-log update succeeds (one row) and
the request_log update matches nothing, the method reports failure yet
the progress-log row keeps the committed Completed status — the partial
dual-write stays visible, refuting the claim that a count mismatch is
always rolled back wholesale. -/
theorem process_case_partial_dual_write :
    (process_case true "ACC1" 100 3 dbProgressOnly).1 = false ∧
    (process_case true "ACC1" 100 3 dbProgressOnly).2.request_progress_log ≠
      dbProgressOnly.request_progress_log ∧
    ((process_case true "ACC1" 100 3 dbProgressOnly).2.request_progress_log.countP
      (fun r => r.status == some "Completed")) = 1 := by
  decide

/-- C7: the Record Fetcher returns exactly the progress-log rows whose
status is Open (a row in a terminal status is never returned), performs
no writes (it is a pure function of the store), and returns the empty
list — rather than raising — both when nothing is pending and when the
connection fails. -/
theorem get_open_orders_spec (db : DBState) :
    (∀ r : ReqRow, r ∈ get_open_orders true db → r.status = some "Open") ∧
    (∀ r : ReqRow, r ∈ db.request_progress_log → r.status = some "Open" →
      r ∈ get_open_orders true db) ∧
    (∀ r : ReqRow, r ∈ get_open_orders true db → r ∈ db.request_progress_log) ∧
    get_open_orders false db = [] := by
  refine ⟨?_, ?_, ?_, by simp [get_open_orders]⟩
  · intro r hr
    have h : r ∈ db.request_progress_log ∧ r.status = some "Open" := by
      simpa [get_open_orders, List.mem_filter] using hr
    exact h.2
  · intro r hr hs
    simp [get_open_orders, List.mem_filter, hr, hs]
  · intro r hr
    have h : r ∈ db.request_progress_log ∧ r.status = some "Open" := by
      simpa [get_open_orders, List.mem_filter] using hr
    exact h.1

/-- Witness for C7: the single Open row of a concrete store is
returned by the fetcher. -/
theorem get_open_orders_spec_witness :
    rowOpen 100 "ACC1" 2 "C1" ∈ get_open_orders true (dbOneOpen 100 "ACC1" 2) :=
  (get_open_orders_spec (dbOneOpen 100 "ACC1" 2)).2.1 (rowOpen 100 "ACC1" 2 "C1")
    (by decide) (by decide)

/-- For the Registration processor, the success and error counts add up
to the number of Order_Id=1 rows, and one rate-limit sleep runs per
such row. -/
theorem customer_registration_counts (inc : ReqRow → Bool) (rows : List ReqRow)
    (now : Nat) :
    ∀ db : DBState,
      (customer_details_for_case_registration inc rows now db).processed +
        (customer_details_for_case_registration inc rows now db).errors =
        rows.countP (fun r => r.orderId == some 1) ∧
      (customer_details_for_case_registration inc rows now db).sleeps1 =
        rows.countP (fun r => r.orderId == some 1) := by
  induction rows with
  | nil =>
    intro db
    simp [customer_details_for_case_registration]
  | cons r rs ih =>
    intro db
    by_cases hr : (r.orderId == some 1) = true
    · have ihs := ih (process_single_document (inc r) r now db).2
      by_cases hs : (process_single_document (inc r) r now db).1 = true
      · simp only [customer_details_for_case_registration, hr, if_true, hs,
          List.countP_cons]
        omega
      · simp only [Bool.not_eq_true] at hs
        simp only [customer_details_for_case_registration, hr, if_true, hs,
          List.countP_cons]
        simp only [Bool.false_eq_true, if_false]
        omega
    · have ihs := ih db
      simp only [Bool.not_eq_true] at hr
      simp only [customer_details_for_case_registration, hr, List.countP_cons]
      simp only [Bool.false_eq_true, if_false]
      omega

/-- For the MonitorStart processor, the success and error counts add up
to the number of Order_Id=2 rows, and one rate-limit sleep runs per
such row. -/
theorem monitor_payment_counts (orc : ReqRow → StepOracle) (rows : List ReqRow)
    (now : Nat) :
    ∀ db : DBState,
      (monitor_payment orc rows now db).processed +
        (monitor_payment orc rows now db).errors =
        rows.countP (fun r => r.orderId == some 2) ∧
      (monitor_payment orc rows now db).sleeps1 =
        rows.countP (fun r => r.orderId == some 2) := by
  induction rows with
  | nil =>
    intro db
    simp [monitor_payment]
  | cons r rs ih =>
    intro db
    by_cases hr : (r.orderId == some 2) = true
    · have ihs := ih (process_monitoring_request (orc r) r now db).2
      by_cases hs : (process_monitoring_request (orc r) r now db).1 = true
      · simp only [monitor_payment, hr, if_true, hs, List.countP_cons]
        omega
      · simp only [Bool.not_eq_true] at hs
        simp only [monitor_payment, hr, if_true, hs, List.countP_cons]
        simp only [Bool.false_eq_true, if_false]
        omega
    · have ihs := ih db
      simp only [Bool.not_eq_true] at hr
      simp only [monitor_payment, hr, List.countP_cons]
      simp only [Bool.false_eq_true, if_false]
      omega

/-- C10: for every input row list, each per-type processor returns a
(processed_count, error_count) pair summing to the number of rows of
its own Order_Id; rows of any other Order_Id are skipped and affect
neither count. -/
theorem per_type_counts (inc : ReqRow → Bool) (orc : ReqRow → StepOracle)
    (rows : List ReqRow) (now : Nat) (db : DBState) :
    (customer_details_for_case_registration inc rows now db).processed +
      (customer_details_for_case_registration inc rows now db).errors =
      rows.countP (fun r => r.orderId == some 1) ∧
    (monitor_payment orc rows now db).processed +
      (monitor_payment orc rows now db).errors =
      rows.countP (fun r => r.orderId == some 2) :=
  ⟨(customer_registration_counts inc rows now db).1,
   (monitor_payment_counts orc rows now db).1⟩

/-- Any cycle input other than an interrupt leaves the loop running. -/
theorem run_cycle_not_interrupted_continues (inc : ReqRow → Bool)
    (orc : ReqRow → StepOracle) (i : CycleInput) (now : Nat) (db : DBState)
    (h : i ≠ CycleInput.interrupted) :
    (run_cycle inc orc i now db).breaks = false := by
  cases i with
  | interrupted => exact absurd rfl h
  | crashed => rfl
  | fetch c =>
    simp only [run_cycle]
    by_cases he : (get_open_orders c db).isEmpty = true
    · simp [he]
    · simp only [Bool.not_eq_true] at he
      by_cases hd : (dispatch_options inc orc [1, 2, 3, 4] (get_open_orders c db) now db).2 = true
      · simp [he, hd]
      · simp only [Bool.not_eq_true] at hd
        simp [he, hd]

/-- Over any schedule without an interrupt, the loop runs every cycle
and never exits. -/
theorem run_process_no_interrupt (inc : ReqRow → Bool)
    (orc : ReqRow → StepOracle) (inputs : List CycleInput) (now : Nat) :
    ∀ db : DBState, (∀ i ∈ inputs, i ≠ CycleInput.interrupted) →
      (run_process inc orc inputs now db).2.2 = false := by
  induction inputs with
  | nil =>
    intro db _
    rfl
  | cons i is ih =>
    intro db h
    have hb := run_cycle_not_interrupted_continues inc orc i now db (h i (by simp))
    simp only [run_process]
    rw [if_neg (by simp [hb])]
    exact ih _ (fun j hj => h j (by simp [hj]))

/-- C8: the poll loop terminates only on an explicit interrupt; an
empty or failed fetch sleeps five seconds and retries; an unexpected
exception in a cycle sleeps five seconds and continues; a nonempty
fetch continues the loop and ends the cycle with a one-second sleep
(or the five-second backoff when a dispatch raised); and the two main
per-type processors apply one one-second rate-limit sleep per matching
record. -/
theorem run_process_loop_behaviour (inc : ReqRow → Bool)
    (orc : ReqRow → StepOracle) (now : Nat) :
    (∀ inputs : List CycleInput, ∀ db : DBState,
      (∀ i ∈ inputs, i ≠ CycleInput.interrupted) →
      (run_process inc orc inputs now db).2.2 = false) ∧
    (∀ db : DBState, run_cycle inc orc CycleInput.interrupted now db =
      { db := db, sleeps := [], breaks := true }) ∧
    (∀ db : DBState, run_cycle inc orc CycleInput.crashed now db =
      { db := db, sleeps := [5], breaks := false }) ∧
    (∀ db : DBState, get_open_orders true db = [] →
      run_cycle inc orc (CycleInput.fetch true) now db =
        { db := db, sleeps := [5], breaks := false }) ∧
    (∀ db : DBState, run_cycle inc orc (CycleInput.fetch false) now db =
      { db := db, sleeps := [5], breaks := false }) ∧
    (∀ db : DBState, get_open_orders true db ≠ [] →
      (run_cycle inc orc (CycleInput.fetch true) now db).breaks = false ∧
      ((run_cycle inc orc (CycleInput.fetch true) now db).sleeps = [1] ∨
        (run_cycle inc orc (CycleInput.fetch true) now db).sleeps = [5])) ∧
    (∀ rows : List ReqRow, ∀ db : DBState,
      (customer_details_for_case_registration inc rows now db).sleeps1 =
        rows.countP (fun r => r.orderId == some 1) ∧
      (monitor_payment orc rows now db).sleeps1 =
        rows.countP (fun r => r.orderId == some 2)) := by
  refine ⟨fun inputs => run_process_no_interrupt inc orc inputs now,
    fun db => rfl, fun db => rfl, ?_, ?_, ?_, ?_⟩
  · intro db h
    simp [run_cycle, h]
  · intro db
    simp [run_cycle, get_open_orders]
  · intro db h
    have he : (get_open_orders true db).isEmpty = false := by
      simpa [List.isEmpty_iff] using h
    refine ⟨run_cycle_not_interrupted_continues inc orc _ now db (by simp), ?_⟩
    simp only [run_cycle, he]
    by_cases hd : (dispatch_options inc orc [1, 2, 3, 4] (get_open_orders true db) now db).2 = true
    · simp [hd]
    · simp only [Bool.not_eq_true] at hd
      simp [hd]
  · intro rows db
    exact ⟨(customer_registration_counts inc rows now db).2,
      (monitor_payment_counts orc rows now db).2⟩

/-- C6: a MonitorCancel request whose (case_id, account_num) matches no
row of process_monitor_progress_log fails and performs no writes: the
store is returned unchanged, so the originating queue record keeps its
Open status. -/
theorem cancel_lookup_miss (request_data : ReqRow) (now : Nat) (db : DBState)
    (hmiss : db.process_monitor_progress_log.find?
      (fun m => m.caseId == request_data.caseId && m.accountNum == request_data.acc) =
      none) :
    cancel_monitoring_request request_data now db = (false, db) := by
  unfold cancel_monitoring_request
  by_cases hv : validate_inputs_cancel request_data.acc request_data.rid
      request_data.caseId = true
  · rw [if_pos hv]
    split
    · next rid acc caseId hrid hacc hcase =>
      rw [hacc, hcase] at hmiss
      split
      · rfl
      · next details hdet =>
        rw [hmiss]
    · rfl
  · rw [if_neg hv]

/-- Witness for C6: a cancel request against a store with no monitor
rows at all (but with queue and details rows present) fails and leaves
the store untouched. -/
theorem cancel_lookup_miss_witness :
    cancel_monitoring_request (rowOpen 101 "ACC1" 3 "C1") 4
      { request_log := [rowOpen 101 "ACC1" 3 "C1"]
        request_progress_log := [rowOpen 101 "ACC1" 3 "C1"]
        request_log_details := [dRow 101]
        process_monitor_log := []
        process_monitor_progress_log := []
        process_monitor_details := []
        nextMonitorId := 1 } =
    (false,
      { request_log := [rowOpen 101 "ACC1" 3 "C1"]
        request_progress_log := [rowOpen 101 "ACC1" 3 "C1"]
        request_log_details := [dRow 101]
        process_monitor_log := []
        process_monitor_progress_log := []
        process_monitor_details := []
        nextMonitorId := 1 }) :=
  cancel_lookup_miss (rowOpen 101 "ACC1" 3 "C1") 4 _ (by decide)

/-- As soon as the row list holds one Order_Id=3 row, the cancel entry
point of the dispatcher raises AttributeError: the method it calls does
not exist on the MonitorPayment class. -/
theorem monitor_payment_cancel_raises (rows : List ReqRow) (db : DBState)
    (h : ∃ r ∈ rows, r.orderId = some 3) :
    monitor_payment_cancel rows db =
      Except.error (PyError.attributeError "MonitorPayment" "cancel_monitoring_request") := by
  induction rows with
  | nil => simp at h
  | cons r rs ih =>
    rcases h with ⟨x, hx, h3⟩
    rcases List.mem_cons.mp hx with hx | hx
    · subst hx
      simp [monitor_payment_cancel, h3]
    · by_cases hr : (r.orderId == some 3) = true
      · simp [monitor_payment_cancel, hr]
      · simp only [Bool.not_eq_true] at hr
        simp only [monitor_payment_cancel, hr, Bool.false_eq_true, if_false]
        exact ih ⟨x, hx, h3⟩

/-- C4: MonitorPayment defines no cancel_monitoring_request method, so
dispatching option 3 with at least one matching record raises
AttributeError out of process_selected_option instead of running the
Monitor-Cancel handler; an unrecognized option, by contrast, runs no
handler, changes no state and raises nothing. -/
theorem dispatch_cancel_attribute_error (inc : ReqRow → Bool)
    (orc : ReqRow → StepOracle) :
    "cancel_monitoring_request" ∉ monitorPaymentMethods ∧
    (∀ rows : List ReqRow, ∀ db : DBState, ∀ now : Nat,
      (∃ r ∈ rows, r.orderId = some 3) →
      process_selected_option inc orc 3 rows now db =
        Except.error (PyError.attributeError "MonitorPayment" "cancel_monitoring_request")) ∧
    (∀ opt : Int, ∀ rows : List ReqRow, ∀ db : DBState, ∀ now : Nat,
      opt ≠ 1 → opt ≠ 2 → opt ≠ 3 → opt ≠ 4 →
      process_selected_option inc orc opt rows now db = Except.ok db) := by
  refine ⟨by decide, ?_, ?_⟩
  · intro rows db now h
    unfold process_selected_option
    rw [if_neg (by decide), if_neg (by decide), if_pos rfl,
      monitor_payment_cancel_raises rows db h]
  · intro opt rows db now h1 h2 h3 h4
    unfold process_selected_option
    rw [if_neg h1, if_neg h2, if_neg h3, if_neg h4]

/-- Witness for C4: the concrete failing input (one Order_Id=3 row)
raises, and an unknown option 9 is a no-op. -/
theorem dispatch_cancel_attribute_error_witness :
    process_selected_option incAll orcAll 3 [rowOpen 101 "ACC1" 3 "C1"] 0 dbEmpty =
      Except.error (PyError.attributeError "MonitorPayment" "cancel_monitoring_request") ∧
    process_selected_option incAll orcAll 9 [rowOpen 101 "ACC1" 3 "C1"] 0 dbEmpty =
      Except.ok dbEmpty :=
  ⟨(dispatch_cancel_attribute_error incAll orcAll).2.1 _ dbEmpty 0 (by decide),
   (dispatch_cancel_attribute_error incAll orcAll).2.2 9 _ dbEmpty 0
     (by decide) (by decide) (by decide) (by decide)⟩

/-- C3 counterexample: with every insert succeeding but the
request_log_details row missing, the MonitorStart handler returns False
at step 3, yet the process_monitor_log row created and committed by
step 1 (and its progress mirror from step 2) remain visible with no
details row — a partial MonitorRecord survives the failure. -/
theorem monitor_start_partial_row_survives :
    (process_monitoring_request (orcAll rowMon) rowMon 2 dbNoDetails).1 = false ∧
    (process_monitoring_request (orcAll rowMon) rowMon 2 dbNoDetails).2.process_monitor_log.length = 1 ∧
    (process_monitoring_request (orcAll rowMon) rowMon 2 dbNoDetails).2.process_monitor_progress_log.length = 1 ∧
    (process_monitoring_request (orcAll rowMon) rowMon 2 dbNoDetails).2.process_monitor_details = [] := by
  decide

/-- A progress-log insert whose INSERT affects no row reports failure
and commits nothing, whatever the prior store. -/
theorem create_progress_log_insert_fail (mid : Nat) (now : Nat) (db : DBState) :
    create_process_monitor_progress_log false mid now db = (false, db) := by
  unfold create_process_monitor_progress_log
  split
  · rfl
  · rfl

/-- C3 (amended): every failing step stops the MonitorStart chain with
False and each insert must affect exactly one row for the chain to
continue, but the steps commit on separate connections, so the rows
already committed by earlier steps survive a later step's failure: when
step 1 succeeds and the step 2 insert fails, the handler returns False
with the new process_monitor_log row still committed and no progress
mirror; only a failure of step 1 itself leaves the store unchanged. -/
theorem monitor_start_step_failure_keeps_committed_rows (o : StepOracle)
    (row : ReqRow) (now : Nat) (db : DBState) :
    (o.insertLogOk = false → process_monitoring_request o row now db = (false, db)) ∧
    (validate_inputs row.acc row.rid = true → o.insertLogOk = true →
      o.insertProgressOk = false → db.nextMonitorId ≠ 0 →
      (process_monitoring_request o row now db).1 = false ∧
      (process_monitoring_request o row now db).2.process_monitor_log =
        db.process_monitor_log ++
          [{ monitorId := db.nextMonitorId
             caseId := row.caseId
             requestId := row.rid
             lastMonitoredDtm := now
             nextMonitorDtm := now + monitoring_interval_hours
             orderId := row.orderId
             accountNum := row.acc
             expireDtm := none
             monitorStatus := "Open"
             monitorStatusDtm := now
             monitorStatusDescription := "Initial monitoring setup" }] ∧
      (process_monitoring_request o row now db).2.process_monitor_progress_log =
        db.process_monitor_progress_log) := by
  constructor
  · intro hlog
    unfold process_monitoring_request create_process_monitor_log
    rw [hlog]
    by_cases hv : validate_inputs row.acc row.rid = true
    · simp [hv]
    · rw [if_neg hv]
  · intro hv hlog hprog hmid
    unfold process_monitoring_request
    rw [if_pos hv]
    unfold create_process_monitor_log
    rw [hlog, hprog]
    simp only [if_true]
    rw [if_neg hmid]
    rw [create_progress_log_insert_fail]
    simp

/-- Witness for C3's amended theorem: the concrete MonitorStart row
against the one-Open store, with the step 2 insert failing. -/
theorem monitor_start_step_failure_witness :
    (process_monitoring_request
      { insertLogOk := true, insertProgressOk := false, insertDetailsOk := true }
      rowMon 2 dbNoDetails).1 = false ∧
    (process_monitoring_request
      { insertLogOk := true, insertProgressOk := false, insertDetailsOk := true }
      rowMon 2 dbNoDetails).2.process_monitor_log =
      dbNoDetails.process_monitor_log ++
        [{ monitorId := dbNoDetails.nextMonitorId
           caseId := rowMon.caseId
           requestId := rowMon.rid
           lastMonitoredDtm := 2
           nextMonitorDtm := 2 + monitoring_interval_hours
           orderId := rowMon.orderId
           accountNum := rowMon.acc
           expireDtm := none
           monitorStatus := "Open"
           monitorStatusDtm := 2
           monitorStatusDescription := "Initial monitoring setup" }] ∧
    (process_monitoring_request
      { insertLogOk := true, insertProgressOk := false, insertDetailsOk := true }
      rowMon 2 dbNoDetails).2.process_monitor_progress_log =
      dbNoDetails.process_monitor_progress_log :=
  (monitor_start_step_failure_keeps_committed_rows
    { insertLogOk := true, insertProgressOk := false, insertDetailsOk := true }
    rowMon 2 dbNoDetails).2 (by decide) rfl rfl (by decide)

/-- On a connection with nothing pending, the borrowed-connection call
of the Status Updater with one matching Open row in each table succeeds,
leaves both updates pending and commits nothing. -/
theorem update_status_clean_conn_success (rid : Int) (acc : String)
    (status : String) (now : Nat) (db : DBState)
    (hv : validate_inputs (some acc) (some rid) = true)
    (h1 : countOpenMatch db.request_progress_log rid acc = 1)
    (h2 : countOpenMatch db.request_log rid acc = 1) :
    update_request_progress_status (some rid) (some acc) status now false
      { committed := db, pending := db } =
      (true,
        { committed := db
          pending :=
            { db with
              request_progress_log :=
                applyReqUpdate db.request_progress_log rid acc status now
                  (some (statusDescription status))
              request_log :=
                applyReqUpdate db.request_log rid acc status now
                  (some (statusDescription status)) } },
        []) := by
  unfold update_request_progress_status
  simp [hv, h1, h2]

/-- On a connection with nothing pending, the borrowed-connection call
of the Status Updater with one matching Open row in the progress log
but a request_log count other than one reports failure without any
transaction-control call: both executed updates stay merely pending and
nothing reaches the committed store. -/
theorem update_status_clean_conn_mismatch (rid : Int) (acc : String)
    (status : String) (now : Nat) (db : DBState)
    (hv : validate_inputs (some acc) (some rid) = true)
    (h1 : countOpenMatch db.request_progress_log rid acc = 1)
    (h2 : countOpenMatch db.request_log rid acc ≠ 1) :
    update_request_progress_status (some rid) (some acc) status now false
      { committed := db, pending := db } =
      (false,
        { committed := db
          pending :=
            { db with
              request_progress_log :=
                applyReqUpdate db.request_progress_log rid acc status now
                  (some (statusDescription status))
              request_log :=
                applyReqUpdate db.request_log rid acc status now
                  (some (statusDescription status)) } },
        []) := by
  unfold update_request_progress_status
  simp [hv, h1, h2]

/-- C5 counterexample: a MonitorClose request whose (case_id,
account_num) matches no existing MonitorRecord is processed
successfully anyway — the handler counts it as processed, creates a
brand-new Closed process_monitor_log row, and marks the originating
queue record Completed, refuting the claim that it must fail without
creating a record. -/
theorem close_monitor_lookup_miss_succeeds :
    (close_monitor_if_no_transaction [rowClose] 3 dbNoMonitor).processed = 1 ∧
    (close_monitor_if_no_transaction [rowClose] 3 dbNoMonitor).errors = 0 ∧
    (close_monitor_if_no_transaction [rowClose] 3 dbNoMonitor).db.process_monitor_log.length = 1 ∧
    countOpenMatch (close_monitor_if_no_transaction [rowClose] 3 dbNoMonitor).db.request_progress_log
      7 "ACC1" = 0 ∧
    ((close_monitor_if_no_transaction [rowClose] 3 dbNoMonitor).db.request_progress_log.countP
      (fun r => r.status == some "Completed")) = 1 := by
  decide

/-- With the details row present and the insert affecting one row, the
details-copy step succeeds and commits the borrowed connection. -/
theorem create_details_success (mid : Nat) (rid : Int) (conn : Conn)
    (drow : DetailsRow)
    (hdet : conn.pending.request_log_details.find?
      (fun d => some rid == some d.requestId) = some drow) :
    create_process_monitor_details true mid (some rid) conn =
      (true,
        commitConn
          { conn with
            pending :=
              { conn.pending with
                process_monitor_details :=
                  conn.pending.process_monitor_details ++
                    [{ monitorId := mid
                       para1 := drow.para1, para2 := drow.para2, para3 := drow.para3
                       para4 := drow.para4, para5 := drow.para5, para6 := drow.para6
                       para7 := drow.para7, para8 := drow.para8, para9 := drow.para9
                       para10 := drow.para10 }] } }) := by
  unfold create_process_monitor_details get_request_details
  rw [hdet]
  rfl

/-- C5 (amended): the MonitorClose handler performs no lookup of an
existing MonitorRecord: for any store — in particular one where no
monitor row matches the request's (case_id, account_num) — a valid
MonitorClose row with its details present and one Open queue row per
table is processed successfully, a brand-new Closed process_monitor_log
row is appended, and the originating queue record leaves Open. -/
theorem close_monitor_creates_without_lookup (row : ReqRow) (rid : Int)
    (acc caseId : String) (now : Nat) (db : DBState) (drow : DetailsRow)
    (hOrder : row.orderId = some 4)
    (hrid : row.rid = some rid) (hacc : row.acc = some acc)
    (hcase : row.caseId = some caseId)
    (hridt : rid ≠ 0) (hacct : acc.isEmpty = false) (hcaset : caseId.isEmpty = false)
    (hv : validate_inputs (some acc) (some rid) = true)
    (hdet : db.request_log_details.find? (fun d => some rid == some d.requestId) = some drow)
    (h1 : countOpenMatch db.request_progress_log rid acc = 1)
    (h2 : countOpenMatch db.request_log rid acc = 1)
    (hmiss : ∀ m ∈ db.process_monitor_log,
      ¬(m.caseId = some caseId ∧ m.accountNum = some acc)) :
    (close_monitor_row row now db).1 = some true ∧
    (close_monitor_row row now db).2.process_monitor_log =
      db.process_monitor_log ++
        [{ monitorId := db.nextMonitorId
           caseId := some caseId
           requestId := some rid
           lastMonitoredDtm := now
           nextMonitorDtm := now + monitoring_interval_hours
           orderId := row.orderId
           accountNum := some acc
           expireDtm := none
           monitorStatus := "Closed"
           monitorStatusDtm := now
           monitorStatusDescription := "Monitor closed due to no transaction" }] ∧
    countOpenMatch (close_monitor_row row now db).2.request_progress_log rid acc = 0 := by
  have htr1 : pyTruthyInt (some rid) = true := by simp [pyTruthyInt, hridt]
  have htr2 : pyTruthyStr (some acc) = true := by simp [pyTruthyStr, hacct]
  have htr3 : pyTruthyStr (some caseId) = true := by simp [pyTruthyStr, hcaset]
  unfold close_monitor_row
  rw [hOrder, hrid, hacc, hcase]
  simp only [htr1, htr2, htr3, beq_self_eq_true, Bool.not_true, Bool.false_eq_true,
    if_false, Bool.or_self, Bool.or_false, Bool.false_or]
  rw [create_details_success _ _ _ drow]
  · simp only [commitConn]
    rw [update_status_clean_conn_success]
    · simp only [commitConn, rollbackConn, Bool.not_true, Bool.false_eq_true, if_false]
      refine ⟨trivial, ?_, ?_⟩
      · rfl
      · exact countOpenMatch_applyReqUpdate db.request_progress_log rid acc "Completed"
          now (some (statusDescription "Completed")) (by decide)
    · exact hv
    · exact h1
    · exact h2
  · exact hdet

/-- Witness for C5's amended theorem: the concrete lookup-miss store of
the counterexample, handled row by row. -/
theorem close_monitor_creates_without_lookup_witness :
    (close_monitor_row rowClose 3 dbNoMonitor).1 = some true :=
  (close_monitor_creates_without_lookup rowClose 7 "ACC1" "C9" 3 dbNoMonitor
    (dRow 7) rfl rfl rfl rfl (by decide) (by decide) (by decide) (by decide)
    (by decide) (by decide) (by decide) (by decide)).1

/-- C2 (amended): when the two status-update statements of a transition
report differing affected-row counts inside the shared Status Updater,
the transition reports failure; the updater runs on a caller-supplied
connection and commits nothing, and the live callers roll back on that
failure, so neither queue table retains a partial update — shown here
end to end through the MonitorClose handler, whose rollback leaves both
queue tables exactly as they were.  The process_case path, which
commits each update separately, does not have this property (its
counterexample above), and the connection=None shape never executes
either update. -/
theorem close_monitor_status_mismatch_rolls_back (row : ReqRow) (rid : Int)
    (acc caseId : String) (now : Nat) (db : DBState) (drow : DetailsRow)
    (hOrder : row.orderId = some 4)
    (hrid : row.rid = some rid) (hacc : row.acc = some acc)
    (hcase : row.caseId = some caseId)
    (hridt : rid ≠ 0) (hacct : acc.isEmpty = false) (hcaset : caseId.isEmpty = false)
    (hv : validate_inputs (some acc) (some rid) = true)
    (hdet : db.request_log_details.find? (fun d => some rid == some d.requestId) = some drow)
    (h1 : countOpenMatch db.request_progress_log rid acc = 1)
    (h2 : countOpenMatch db.request_log rid acc ≠ 1) :
    (close_monitor_row row now db).1 = some false ∧
    (close_monitor_row row now db).2.request_progress_log = db.request_progress_log ∧
    (close_monitor_row row now db).2.request_log = db.request_log := by
  have htr1 : pyTruthyInt (some rid) = true := by simp [pyTruthyInt, hridt]
  have htr2 : pyTruthyStr (some acc) = true := by simp [pyTruthyStr, hacct]
  have htr3 : pyTruthyStr (some caseId) = true := by simp [pyTruthyStr, hcaset]
  unfold close_monitor_row
  rw [hOrder, hrid, hacc, hcase]
  simp only [htr1, htr2, htr3, beq_self_eq_true, Bool.not_true, Bool.false_eq_true,
    if_false, Bool.or_self, Bool.or_false, Bool.false_or]
  rw [create_details_success _ _ _ drow]
  · simp only [commitConn]
    rw [update_status_clean_conn_mismatch]
    · simp only [commitConn, rollbackConn, Bool.not_false, Bool.not_true, if_true]
      exact ⟨rfl, rfl, rfl⟩
    · exact hv
    · exact h1
    · exact h2
  · exact hdet

/-- Witness for C2's amended theorem: the concrete mismatched store
(progress row Open, request_log empty) handed to the MonitorClose
handler fails and keeps both queue tables unchanged. -/
theorem close_monitor_status_mismatch_rolls_back_witness :
    (close_monitor_row rowClose 3 dbCloseMismatch).1 = some false ∧
    (close_monitor_row rowClose 3 dbCloseMismatch).2.request_progress_log =
      dbCloseMismatch.request_progress_log ∧
    (close_monitor_row rowClose 3 dbCloseMismatch).2.request_log =
      dbCloseMismatch.request_log :=
  close_monitor_status_mismatch_rolls_back rowClose 7 "ACC1" "C9" 3 dbCloseMismatch
    (dRow 7) rfl rfl rfl rfl (by decide) (by decide) (by decide) (by decide)
    (by decide) (by decide) (by decide)

/-- Witness for C8 at concrete schedules: a crash-then-fetch schedule
never exits, an empty fetch backs off five seconds, and a nonempty
fetch continues with a one- or five-second sleep. -/
theorem run_process_loop_behaviour_witness :
    (run_process incAll orcAll [CycleInput.crashed, CycleInput.fetch false] 0 dbEmpty).2.2
      = false ∧
    run_cycle incAll orcAll (CycleInput.fetch true) 0 dbEmpty =
      { db := dbEmpty, sleeps := [5], breaks := false } ∧
    (run_cycle incAll orcAll (CycleInput.fetch true) 0 (dbOneOpen 100 "ACC1" 2)).breaks
      = false :=
  ⟨(run_process_loop_behaviour incAll orcAll 0).1 _ dbEmpty (by decide),
   (run_process_loop_behaviour incAll orcAll 0).2.2.2.1 dbEmpty (by decide),
   ((run_process_loop_behaviour incAll orcAll 0).2.2.2.2.2.1 (dbOneOpen 100 "ACC1" 2)
     (by decide)).1⟩

end Debtx
